import Mathlib

/-!
Verification of the session-coordination core of the Maan collaborative
editor (`src/app.py`).  The Python handlers are shallowly embedded as pure
Lean functions: the process-wide `active_sessions` dict becomes an
association list from session key to `SessionData`, the SQLAlchemy
`Project` rows consumed by the handlers become a list of `Project`
records, socket emits become explicit `Event` values, and file-system
writes become explicit `(path, content)` pairs in the handler output.
External sources of nondeterminism (random color choice, generated
approval ids, the transport connection id `request.sid`, the HTTP
session's `user_id`, file-write success, file modification times) are
passed as parameters.  Handlers whose Python code can raise an unhandled
exception (attribute access on a missing project row, an un-guarded file
write) return `Option`, with `none` for the crash.
-/

namespace Maan

/-- One entry of a session's `users` list: the dict created in
`handle_join_session` / `handle_join_approval_response`, with keys
`sid`, `username`, `color`, `current_file`, `is_anonymous`, `sessionId`
(client-supplied stable identity, possibly absent) and `is_admin`. -/
structure UserData where
  sid : String
  username : String
  color : String
  current_file : Option String
  is_anonymous : Bool
  sessionId : Option String
  is_admin : Bool
deriving DecidableEq

/-- One entry of a session's `pending_approvals` list.  The source creates
exactly two dict shapes: `join`-type approvals (in `handle_join_session`)
with keys `id, type, username, is_anonymous, sessionId, sid`, and
`save`-type approvals (in `save_file`) with keys
`id, type, path, content, user`. -/
inductive Approval where
  | join (id username : String) (is_anonymous : Bool) (sessionId : Option String) (sid : String)
  | save (id path content user : String)
deriving DecidableEq

/-- `approval['id']`. -/
def Approval.id : Approval → String
  | .join i _ _ _ _ => i
  | .save i _ _ _ => i

/-- `approval['type']` (`'join'` or `'save'`). -/
def Approval.type : Approval → String
  | .join _ _ _ _ _ => "join"
  | .save _ _ _ _ => "save"

/-- `approval.get('sessionId')`: absent on `save`-type approvals. -/
def Approval.getSessionId : Approval → Option String
  | .join _ _ _ s _ => s
  | .save _ _ _ _ => none

/-- `approval.get('sid')`: absent on `save`-type approvals. -/
def Approval.getSid : Approval → Option String
  | .join _ _ _ _ s => some s
  | .save _ _ _ _ => none

/-- `approval['sid'] = request.sid` (only ever executed on `join`-type
approvals, whose dict has the key). -/
def Approval.setSid (newSid : String) : Approval → Approval
  | .join i u a s _ => .join i u a s newSid
  | .save i p c u => .save i p c u

/-- `approval['sid']` read on a `join`-type approval; the `save` default is
unreachable at every use site (the lookup predicate checks the type). -/
def Approval.sidD (a : Approval) : String := (a.getSid).getD ""

/-- `approval['username']` on a `join`-type approval. -/
def Approval.usernameD : Approval → String
  | .join _ u _ _ _ => u
  | .save _ _ _ _ => ""

/-- `approval['is_anonymous']` on a `join`-type approval. -/
def Approval.anonD : Approval → Bool
  | .join _ _ a _ _ => a
  | .save _ _ _ _ => true

/-- `approval['path']` on a `save`-type approval. -/
def Approval.pathD : Approval → String
  | .join _ _ _ _ _ => ""
  | .save _ p _ _ => p

/-- `approval['content']` on a `save`-type approval. -/
def Approval.contentD : Approval → String
  | .join _ _ _ _ _ => ""
  | .save _ _ c _ => c

/-- `approval['user']` on a `save`-type approval. -/
def Approval.userD : Approval → String
  | .join _ _ _ _ _ => ""
  | .save _ _ _ u => u

/-- The per-session value of `active_sessions`:
`{'users': [...], 'pending_approvals': [...]}`. -/
structure SessionData where
  users : List UserData
  pending_approvals : List Approval
deriving DecidableEq

/-- The fields of the SQLAlchemy `Project` row that the coordination core
reads: `session_id`, `admin_id`, `workspace_path`, `max_users`, `active`. -/
structure Project where
  session_id : String
  admin_id : Nat
  workspace_path : String
  max_users : Nat
  active : Bool
deriving DecidableEq

/-- `Project.query.filter_by(session_id=...).first()`. -/
def queryProject (projects : List Project) (session_id : String) : Option Project :=
  projects.find? (fun p => p.session_id == session_id)

/-- The `active_sessions` dict: an insertion-ordered association list. -/
abbrev Sessions := List (String × SessionData)

/-- `active_sessions[k]` lookup (`None` when the key is absent). -/
def lookupSession : Sessions → String → Option SessionData
  | [], _ => none
  | e :: rest, k => if e.1 == k then some e.2 else lookupSession rest k

/-- `active_sessions[k] = sd` on a key that is already present. -/
def setSession : Sessions → String → SessionData → Sessions
  | [], _, _ => []
  | e :: rest, k, sd => if e.1 == k then (k, sd) :: rest else e :: setSession rest k sd

/-- `if k not in active_sessions: active_sessions[k] = {'users': [], 'pending_approvals': []}`
(Python dicts append new keys in insertion order). -/
def ensureSession (sessions : Sessions) (k : String) : Sessions :=
  if (lookupSession sessions k).isSome then sessions
  else sessions ++ [(k, ⟨[], []⟩)]

/-- Update the first list element satisfying `p` (Python code mutates the
dict object returned by the first-match `next(...)` lookup). -/
def updateFirst (p : α → Bool) (f : α → α) : List α → List α
  | [] => []
  | x :: xs => if p x then f x :: xs else x :: updateFirst p f xs

/- ===== Path handling: `is_safe_path` and the `os.path` pieces it uses ===== -/

/-- Split a character list on `'/'` (the segment decomposition that
`posixpath.normpath` performs). -/
def splitOnSlash : List Char → List Char → List (List Char)
  | [], acc => [acc.reverse]
  | c :: cs, acc => if c = '/' then acc.reverse :: splitOnSlash cs [] else splitOnSlash cs (c :: acc)

/-- `posixpath.normpath` segment processing for an absolute path: drop
empty and `'.'` segments, let `'..'` pop the previous segment (at the
root it is dropped). -/
def normSegs : List (List Char) → List (List Char) → List (List Char)
  | [], acc => acc.reverse
  | s :: rest, acc =>
    if s = [] ∨ s = ['.'] then normSegs rest acc
    else if s = ['.', '.'] then normSegs rest acc.tail
    else normSegs rest (s :: acc)

/-- `os.path.normpath` on an absolute posix path, as a character list. -/
def normpathAbs (p : List Char) : List Char :=
  '/' :: (List.intercalate ['/'] (normSegs (splitOnSlash p []) []))

/-- `os.path.join(a, b)` for posix paths: `b` wins if absolute; otherwise
concatenate with exactly one separator. -/
def joinChars (a b : List Char) : List Char :=
  if b.head? = some '/' then b
  else if a = [] then b
  else if a.getLast? = some '/' then a ++ b
  else a ++ '/' :: b

/-- `os.path.join` on strings. -/
def os_path_join (a b : String) : String := ⟨joinChars a.toList b.toList⟩

/-- `os.path.abspath` as used here: every call site passes a path built on
the absolute `workspace_path` (itself produced by `os.path.abspath`), so
`abspath` reduces to `normpath`. -/
def os_path_abspath (p : List Char) : List Char := normpathAbs p

/-- `is_safe_path(workspace_path, relative_path)` from `src/app.py`:
`os.path.commonprefix([abspath(join(w, r)), w]) == w`.  The character-wise
common prefix of two strings equals `w` exactly when `w` is a prefix of
the other string, so the check is a prefix test. -/
def is_safe_path (workspace_path relative_path : String) : Bool :=
  let full_path := os_path_abspath (joinChars workspace_path.toList relative_path.toList)
  List.isPrefixOf workspace_path.toList full_path

/- ===== Events ===== -/

/-- A socket emit destination: a bare `emit(...)` goes back to the
connection whose inbound event is being handled; `emit(..., room=r)` goes
to a named room (session room, `"<id>_admin"` room, or a single
connection id, which Socket.IO also treats as a room). -/
inductive Target where
  | caller
  | toRoom (name : String)
deriving DecidableEq

/-- Event payloads, one shape per emit site in the source. -/
inductive Payload where
  | message (text : String)
  | userInfo (u : UserData)
  | userList (us : List UserData)
  | joinedInfo (username color : String) (u : UserData) (us : List UserData)
  | joinRequestInfo (id username : String)
  | leftInfo (sid username : String)
  | cursorInfo (sid position file color username : String)
  | contentInfo (sid changes file : String) (version : Nat)
  | fileChangeInfo (sid file : String)
  | chatInfo (username color text timestamp : String)
  | saveRequestInfo (id ty path user : String)
  | resultInfo (id : String) (approved : Bool)
  | savedInfo (path user content : String) (mtime : Nat)
deriving DecidableEq

/-- One socket emit: event name, destination, the `include_self` flag
(Socket.IO's default is `True`) and the payload. -/
structure Event where
  name : String
  target : Target
  include_self : Bool
  payload : Payload
deriving DecidableEq

/-- Modelled from the spec (§4.5 Broadcast Router): delivery of an emitted
event, given the membership list of each room and the emitting handler's
connection id.  A connection receives a room emit iff it is in the room
and is not excluded as the sender; a bare emit reaches the sender alone.
The room-membership relation itself lives in the external Socket.IO
layer, so it is a parameter here. -/
def deliveredTo (roomOf : String → List String) (sender : String) (e : Event)
    (c : String) : Bool :=
  match e.target with
  | .caller => c == sender
  | .toRoom r => (roomOf r).contains c && (e.include_self || !(c == sender))

/-- Result of a socket handler: the updated `active_sessions`, the emits
performed (in order) and the file writes performed. -/
structure HandlerOut where
  sessions : Sessions
  events : List Event
  writes : List (String × String) := []
deriving DecidableEq

/- ===== Socket handlers ===== -/

/-- `handle_disconnect`'s scan loop over `active_sessions.items()`.
For each session: if a user with the disconnected `sid` is found, remove
it, emit `user_left` and `break` — which also skips that session's
pending-approval purge and every later session; otherwise purge the
session's pending approvals whose `sid` key equals the disconnected id
(`save`-type approvals have no `sid` key, so `.get('sid')` never matches). -/
def disconnectLoop (request_sid : String) : Sessions → Sessions × List Event
  | [] => ([], [])
  | (k, sd) :: rest =>
    match sd.users.find? (fun u => u.sid == request_sid) with
    | some user =>
      ((k, { sd with users := sd.users.filter (fun u => !(u.sid == request_sid)) }) :: rest,
        [⟨"user_left", .toRoom k, false, .leftInfo request_sid user.username⟩])
    | none =>
      let sd' := { sd with
        pending_approvals := sd.pending_approvals.filter (fun a => !(a.getSid == some request_sid)) }
      let r := disconnectLoop request_sid rest
      ((k, sd') :: r.1, r.2)

/-- `@socketio.on('disconnect')` handler. -/
def handle_disconnect (sessions : Sessions) (request_sid : String) : HandlerOut :=
  let r := disconnectLoop request_sid sessions
  { sessions := r.1, events := r.2 }

/-- `@socketio.on('approval_response')` handler (`resolveWrite`).
`writeOk` is the outcome of the external file write (the `try` body),
`mtime` the resulting modification time.  Returns `none` when the Python
would raise: the project row is read without a `None` check inside the
approved-save branch. -/
def handle_approval_response (projects : List Project) (sessions : Sessions)
    (session_id approval_id : String) (approved : Bool)
    (writeOk : Bool) (mtime : Nat) : Option HandlerOut :=
  match lookupSession sessions session_id with
  | none => some { sessions := sessions, events := [] }
  | some sd =>
    match sd.pending_approvals.find? (fun a => a.id == approval_id) with
    | none => some { sessions := sessions, events := [] }
    | some approval =>
      if approved && approval.type == "save" then
        match queryProject projects session_id with
        | none => none
        | some project =>
          if !(is_safe_path project.workspace_path approval.pathD) then
            -- early return: the pending approval is NOT removed and no
            -- approval_result is emitted
            some { sessions := sessions,
                   events := [⟨"error", .caller, true, .message "Invalid path"⟩] }
          else
            let full_path := os_path_join project.workspace_path approval.pathD
            let sd' := { sd with
              pending_approvals := sd.pending_approvals.filter (fun a => !(a.id == approval_id)) }
            if writeOk then
              some { sessions := setSession sessions session_id sd',
                     events := [⟨"file_saved", .toRoom session_id, true,
                                  .savedInfo approval.pathD approval.userD approval.contentD mtime⟩,
                                ⟨"approval_result", .toRoom session_id, true,
                                  .resultInfo approval_id approved⟩],
                     writes := [(full_path, approval.contentD)] }
            else
              some { sessions := setSession sessions session_id sd',
                     events := [⟨"error", .caller, true, .message "Failed to save"⟩,
                                ⟨"approval_result", .toRoom session_id, true,
                                  .resultInfo approval_id approved⟩] }
      else
        let sd' := { sd with
          pending_approvals := sd.pending_approvals.filter (fun a => !(a.id == approval_id)) }
        some { sessions := setSession sessions session_id sd',
               events := [⟨"approval_result", .toRoom session_id, true,
                            .resultInfo approval_id approved⟩] }

/-- `@socketio.on('cursor_move')` handler. -/
def handle_cursor_move (sessions : Sessions) (request_sid : String)
    (session_id position file : String) : HandlerOut :=
  match lookupSession sessions session_id with
  | none => { sessions := sessions, events := [] }
  | some sd =>
    match sd.users.find? (fun u => u.sid == request_sid) with
    | none => { sessions := sessions, events := [] }
    | some user =>
      { sessions := sessions,
        events := [⟨"cursor_update", .toRoom session_id, false,
                     .cursorInfo request_sid position file user.color user.username⟩] }

/-- `@socketio.on('file_open')` handler: records the opener's
`current_file` (first user with the caller's `sid`), then emits
`user_file_change` to the whole room with `include_self=True`
(unconditionally, even when the session key is unknown). -/
def handle_file_open (sessions : Sessions) (request_sid : String)
    (session_id file : String) : HandlerOut :=
  let sessions' :=
    match lookupSession sessions session_id with
    | none => sessions
    | some sd =>
      let users' := updateFirst (fun u => u.sid == request_sid)
        (fun u => { u with current_file := some file }) sd.users
      setSession sessions session_id { sd with users := users' }
  { sessions := sessions',
    events := [⟨"user_file_change", .toRoom session_id, true,
                 .fileChangeInfo request_sid file⟩] }

/-- `@socketio.on('join_session')` handler.  `http_user_id` is the Flask
HTTP session's `user_id` cookie value (absent when not logged in);
`user_session_id` is `data.get('sessionId')`, the client-held stable
identity; `color` and `approval_id` are the externally generated
`assign_color()` / `secrets.token_hex(8)` values consumed if the handler
reaches the corresponding branch. -/
def handle_join_session (projects : List Project) (sessions : Sessions)
    (request_sid : String) (http_user_id : Option Nat)
    (session_id username : String) (is_anonymous : Bool)
    (user_session_id : Option String) (color approval_id : String) : HandlerOut :=
  match queryProject projects session_id with
  | none =>
    { sessions := sessions,
      events := [⟨"error", .caller, true, .message "Session not found or inactive"⟩] }
  | some project =>
    if !project.active then
      { sessions := sessions,
        events := [⟨"error", .caller, true, .message "Session not found or inactive"⟩] }
    else
      let sessions1 := ensureSession sessions session_id
      let sd := (lookupSession sessions1 session_id).getD ⟨[], []⟩
      let existing_user := sd.users.find? (fun u => u.sessionId == user_session_id)
      let pending_approval := sd.pending_approvals.find?
        (fun a => a.getSessionId == user_session_id && a.type == "join")
      let is_user_admin := http_user_id == some project.admin_id
      if pending_approval.isSome then
        -- reload while pending: update the approval's sid in place, re-send the wait notice
        let pending' := updateFirst
          (fun a => a.getSessionId == user_session_id && a.type == "join")
          (Approval.setSid request_sid) sd.pending_approvals
        { sessions := setSession sessions1 session_id { sd with pending_approvals := pending' },
          events := [⟨"waiting_approval", .caller, true,
                       .message "Waiting for admin approval..."⟩] }
      else
        match existing_user with
        | some u =>
          -- reconnection: rewrite the sid, and grant is_admin when the HTTP
          -- session authenticates as the project admin
          let upd := fun (w : UserData) =>
            if is_user_admin then { w with sid := request_sid, is_admin := true }
            else { w with sid := request_sid }
          let users' := updateFirst (fun w => w.sessionId == user_session_id) upd sd.users
          { sessions := setSession sessions1 session_id { sd with users := users' },
            events := [⟨"user_connected", .caller, true, .userInfo (upd u)⟩,
                       ⟨"session_state", .caller, true, .userList users'⟩] }
        | none =>
          if is_user_admin then
            -- direct admit of the admin
            if sd.users.length ≥ project.max_users then
              { sessions := sessions1,
                events := [⟨"error", .caller, true, .message "Session is full"⟩] }
            else
              let user_data : UserData :=
                ⟨request_sid, username, color, none, is_anonymous, user_session_id, true⟩
              let users' := sd.users ++ [user_data]
              { sessions := setSession sessions1 session_id { sd with users := users' },
                events := [⟨"user_connected", .caller, true, .userInfo user_data⟩,
                           ⟨"user_joined", .toRoom session_id, true,
                             .joinedInfo username color user_data users'⟩] }
          else
            -- non-admin: gated behind admin approval
            if sd.users.length ≥ project.max_users then
              { sessions := sessions1,
                events := [⟨"error", .caller, true, .message "Session is full"⟩] }
            else
              let existing_pending := sd.pending_approvals.find?
                (fun a => a.getSessionId == user_session_id && a.type == "join")
              match existing_pending with
              | some _ =>
                let pending' := updateFirst
                  (fun a => a.getSessionId == user_session_id && a.type == "join")
                  (Approval.setSid request_sid) sd.pending_approvals
                { sessions := setSession sessions1 session_id
                    { sd with pending_approvals := pending' },
                  events := [⟨"waiting_approval", .caller, true,
                               .message "Waiting for admin approval..."⟩] }
              | none =>
                let ap : Approval :=
                  .join approval_id username is_anonymous user_session_id request_sid
                let pending' := sd.pending_approvals ++ [ap]
                { sessions := setSession sessions1 session_id
                    { sd with pending_approvals := pending' },
                  events := [⟨"join_approval_request", .toRoom (session_id ++ "_admin"), true,
                               .joinRequestInfo approval_id username⟩,
                             ⟨"waiting_approval", .caller, true,
                               .message "Waiting for admin approval..."⟩] }

/-- `@socketio.on('join_approval_response')` handler (`resolveJoin`).
Returns `none` when the Python would raise: inside the approved branch
the project row is read without a `None` check. -/
def handle_join_approval_response (projects : List Project) (sessions : Sessions)
    (session_id approval_id : String) (approved : Bool)
    (color : String) : Option HandlerOut :=
  match lookupSession sessions session_id with
  | none => some { sessions := sessions, events := [] }
  | some sd =>
    match sd.pending_approvals.find? (fun a => a.id == approval_id && a.type == "join") with
    | none => some { sessions := sessions, events := [] }
    | some approval =>
      if approved then
        match queryProject projects session_id with
        | none => none
        | some project =>
          if sd.users.length ≥ project.max_users then
            -- capacity re-check failed: notify the waiting connection,
            -- remove the pending entry, and return
            let sd' := { sd with pending_approvals :=
              sd.pending_approvals.filter (fun a => !(a.id == approval_id)) }
            some { sessions := setSession sessions session_id sd',
                   events := [⟨"error", .toRoom approval.sidD, true,
                                .message "Session is full"⟩] }
          else
            let user_data : UserData :=
              ⟨approval.sidD, approval.usernameD, color, none, approval.anonD,
                approval.getSessionId, false⟩
            let users' := sd.users ++ [user_data]
            let pending' := sd.pending_approvals.filter (fun a => !(a.id == approval_id))
            let sd' := { sd with users := users', pending_approvals := pending' }
            some { sessions := setSession sessions session_id sd',
                   events := [⟨"join_approved", .toRoom approval.sidD, true,
                                .userInfo user_data⟩,
                              ⟨"session_state", .toRoom approval.sidD, true,
                                .userList users'⟩,
                              ⟨"user_joined", .toRoom session_id, true,
                                .joinedInfo approval.usernameD color user_data users'⟩] }
      else
        let sd' := { sd with pending_approvals :=
          sd.pending_approvals.filter (fun a => !(a.id == approval_id)) }
        some { sessions := setSession sessions session_id sd',
               events := [⟨"join_rejected", .toRoom approval.sidD, true,
                            .message "Your request to join was denied"⟩] }

/-- HTTP result of the `save_file` route. -/
inductive SaveResult where
  | notFound
  | invalidPath
  | success
  | pendingApproval
deriving DecidableEq

/-- Output of the `save_file` route. -/
structure SaveOut where
  sessions : Sessions
  events : List Event
  writes : List (String × String)
  result : SaveResult
deriving DecidableEq

/-- `POST /api/session/<session_id>/files/save` (`save_file` in
`src/app.py`).  The admin branch's file write is not wrapped in
`try/except`, so a failing write (`writeOk = false`) propagates as an
unhandled exception, modelled as `none`. -/
def save_file (projects : List Project) (sessions : Sessions)
    (http_user_id : Option Nat) (session_id path content user_info approval_id : String)
    (writeOk : Bool) (mtime : Nat) : Option SaveOut :=
  match queryProject projects session_id with
  | none => some ⟨sessions, [], [], .notFound⟩
  | some project =>
    if http_user_id == some project.admin_id then
      if !(is_safe_path project.workspace_path path) then
        some ⟨sessions, [], [], .invalidPath⟩
      else if writeOk then
        let full_path := os_path_join project.workspace_path path
        some ⟨sessions,
              [⟨"file_saved", .toRoom session_id, true,
                 .savedInfo path user_info content mtime⟩],
              [(full_path, content)], .success⟩
      else
        none
    else
      let sessions1 := ensureSession sessions session_id
      let sd := (lookupSession sessions1 session_id).getD ⟨[], []⟩
      let sd' := { sd with pending_approvals :=
        sd.pending_approvals ++ [Approval.save approval_id path content user_info] }
      some ⟨setSession sessions1 session_id sd',
            [⟨"approval_request", .toRoom (session_id ++ "_admin"), true,
               .saveRequestInfo approval_id "save" path user_info⟩],
            [], .pendingApproval⟩

/-- HTTP result of the `close_session` route. -/
inductive CloseResult where
  | notAuthenticated
  | notAuthorized
  | closed
deriving DecidableEq

/-- `POST /api/admin/close-session/<session_id>` (`close_session` in
`src/app.py`): flags the project row inactive and broadcasts
`session_closed` to the room. -/
def close_session (projects : List Project) (http_user_id : Option Nat)
    (session_id : String) : List Project × List Event × CloseResult :=
  match http_user_id with
  | none => (projects, [], .notAuthenticated)
  | some uid =>
    match queryProject projects session_id with
    | none => (projects, [], .notAuthorized)
    | some project =>
      if !(uid == project.admin_id) then (projects, [], .notAuthorized)
      else
        (projects.map (fun p => if p.session_id == session_id then { p with active := false } else p),
         [⟨"session_closed", .toRoom session_id, true,
            .message "Session has been closed"⟩], .closed)

/-- `@socketio.on('chat_message')` handler.  `color_default` models
`data.get('color', '#999')`; `timestamp` the `datetime.utcnow()` result. -/
def handle_chat_message (sessions : Sessions) (session_id username message
    color_default timestamp : String) : HandlerOut :=
  let user_color :=
    match lookupSession sessions session_id with
    | none => color_default
    | some sd =>
      match sd.users.find? (fun u => u.username == username) with
      | none => color_default
      | some u => u.color
  { sessions := sessions,
    events := [⟨"chat_message", .toRoom session_id, true,
                 .chatInfo username user_color message timestamp⟩] }

/- ===== Derived observations used in the stated properties ===== -/

/-- Roster size of a session (`len(active_sessions[k]['users'])`, `0`
when the key is absent). -/
def usersLen (sessions : Sessions) (k : String) : Nat :=
  ((lookupSession sessions k).getD ⟨[], []⟩).users.length

/-- Number of outstanding `join`-kind approvals of a session for one
stable identity `x` (the multiplicity behind the at-most-one invariant). -/
def joinCount (sd : SessionData) (x : Option String) : Nat :=
  (sd.pending_approvals.filter
    (fun a => a.getSessionId == x && a.type == "join")).length

/-- Invariant: at most one outstanding `join`-kind approval per stable
identity within a session. -/
def JoinInv (sd : SessionData) : Prop := ∀ x : Option String, joinCount sd x ≤ 1

/-- Invariant lifted to the whole registry. -/
def RegistryJoinInv (sessions : Sessions) : Prop :=
  ∀ e ∈ sessions, JoinInv e.2

/- ===== Helper lemmas about the registry and list operations ===== -/

theorem updateFirst_length (p : α → Bool) (f : α → α) (l : List α) :
    (updateFirst p f l).length = l.length := by
  induction l with
  | nil => rfl
  | cons x xs ih =>
    simp only [updateFirst]
    split <;> simp [ih]

theorem updateFirst_map_of_preserve (p : α → Bool) (f : α → α) (g : α → β)
    (hg : ∀ a, g (f a) = g a) (l : List α) :
    (updateFirst p f l).map g = l.map g := by
  induction l with
  | nil => rfl
  | cons x xs ih =>
    simp only [updateFirst]
    split <;> simp [ih, hg]

theorem ensureSession_of_isSome (s : Sessions) (k : String)
    (h : (lookupSession s k).isSome) : ensureSession s k = s := by
  simp [ensureSession, h]

theorem lookupSession_append_of_none (s t : Sessions) (k : String)
    (h : lookupSession s k = none) : lookupSession (s ++ t) k = lookupSession t k := by
  induction s with
  | nil => rfl
  | cons e rest ih =>
    simp only [lookupSession] at h ⊢
    cases hk : (e.1 == k) with
    | true => simp [hk] at h
    | false =>
      simp only [hk] at h ⊢
      simp only [Bool.false_eq_true, if_false] at h ⊢
      exact ih h

theorem lookupSession_setSession_self (s : Sessions) (k : String) (sd : SessionData)
    (h : (lookupSession s k).isSome) :
    lookupSession (setSession s k sd) k = some sd := by
  induction s with
  | nil => simp [lookupSession] at h
  | cons e rest ih =>
    simp only [lookupSession, setSession] at h ⊢
    cases hk : (e.1 == k) with
    | true =>
      simp only [hk, if_true, lookupSession]
      simp
    | false =>
      simp only [hk, Bool.false_eq_true, if_false] at h ⊢
      simp only [lookupSession, hk, Bool.false_eq_true, if_false]
      exact ih h

theorem lookupSession_ensureSession (s : Sessions) (k : String) :
    lookupSession (ensureSession s k) k =
      some ((lookupSession s k).getD ⟨[], []⟩) := by
  cases h : lookupSession s k with
  | some sd =>
    rw [ensureSession_of_isSome s k (by simp [h])]
    simp [h]
  | none =>
    simp only [ensureSession, h, Option.isSome_none, Bool.false_eq_true, if_false]
    rw [lookupSession_append_of_none s _ k h]
    simp [lookupSession]

theorem lookupSession_isSome_ensure (s : Sessions) (k : String) :
    (lookupSession (ensureSession s k) k).isSome := by
  simp [lookupSession_ensureSession]

/-- After removing every approval with a given id, no lookup keyed on that
id can succeed, whatever extra conjunct the lookup predicate carries. -/
theorem find?_filter_removed (l : List Approval) (apid : String) (q : Approval → Bool)
    (hq : ∀ a, q a = true → (a.id == apid) = true) :
    (l.filter (fun a => !(a.id == apid))).find? q = none := by
  apply List.find?_eq_none.mpr
  intro a ha
  have := (List.mem_filter.mp ha).2
  intro hqa
  have := hq a hqa
  simp_all

theorem mem_setSession (s : Sessions) (k : String) (sd : SessionData)
    (e : String × SessionData) (he : e ∈ setSession s k sd) :
    e = (k, sd) ∨ e ∈ s := by
  induction s with
  | nil => simp [setSession] at he
  | cons x rest ih =>
    simp only [setSession] at he
    cases hk : (x.1 == k) with
    | true =>
      simp only [hk, if_true, List.mem_cons] at he
      rcases he with h | h
      · left; exact h
      · right; exact List.mem_cons_of_mem x h
    | false =>
      simp only [hk, Bool.false_eq_true, if_false, List.mem_cons] at he
      rcases he with h | h
      · right; exact h ▸ List.mem_cons_self x rest
      · rcases ih h with h' | h'
        · left; exact h'
        · right; exact List.mem_cons_of_mem x h'

theorem usersLen_set_ensure (s : Sessions) (k : String) (sd : SessionData) :
    usersLen (setSession (ensureSession s k) k sd) k = sd.users.length := by
  unfold usersLen
  rw [lookupSession_setSession_self _ _ _ (lookupSession_isSome_ensure s k)]
  rfl

theorem usersLen_ensure (s : Sessions) (k : String) :
    usersLen (ensureSession s k) k = usersLen s k := by
  unfold usersLen
  rw [lookupSession_ensureSession]
  rfl

theorem usersLen_set (s : Sessions) (k : String) (sd : SessionData)
    (h : (lookupSession s k).isSome) :
    usersLen (setSession s k sd) k = sd.users.length := by
  unfold usersLen
  rw [lookupSession_setSession_self s k sd h]
  rfl

@[simp]
theorem Approval.getSessionId_setSid (s : String) (a : Approval) :
    (a.setSid s).getSessionId = a.getSessionId := by
  cases a <;> rfl

@[simp]
theorem Approval.type_setSid (s : String) (a : Approval) :
    (a.setSid s).type = a.type := by
  cases a <;> rfl

theorem filter_length_updateFirst (p q : α → Bool) (f : α → α)
    (hf : ∀ a, q (f a) = q a) (l : List α) :
    ((updateFirst p f l).filter q).length = (l.filter q).length := by
  induction l with
  | nil => rfl
  | cons x xs ih =>
    simp only [updateFirst]
    split
    · simp only [List.filter_cons, hf x]
      split <;> simp
    · simp only [List.filter_cons]
      split <;> simp [ih]

theorem filter_filter_length_le (p q : α → Bool) (l : List α) :
    ((l.filter p).filter q).length ≤ (l.filter q).length :=
  List.Sublist.length_le (List.Sublist.filter q (List.filter_sublist l))

theorem lookupSession_mem (s : Sessions) (k : String) (sd : SessionData)
    (h : lookupSession s k = some sd) : ∃ e ∈ s, e.2 = sd := by
  induction s with
  | nil => simp [lookupSession] at h
  | cons e rest ih =>
    simp only [lookupSession] at h
    cases hk : (e.1 == k) with
    | true =>
      simp only [hk, if_true, Option.some.injEq] at h
      exact ⟨e, List.mem_cons_self e rest, h⟩
    | false =>
      simp only [hk, Bool.false_eq_true, if_false] at h
      rcases ih h with ⟨e', he', hsd⟩
      exact ⟨e', List.mem_cons_of_mem e he', hsd⟩

theorem JoinInv_lookup (s : Sessions) (k : String) (h : RegistryJoinInv s) :
    JoinInv ((lookupSession s k).getD ⟨[], []⟩) := by
  cases hl : lookupSession s k with
  | none => intro x; simp [joinCount]
  | some sd =>
    rcases lookupSession_mem s k sd hl with ⟨e, he, hsd⟩
    simpa [hsd] using h e he

theorem RegistryJoinInv_set (s : Sessions) (k : String) (sd : SessionData)
    (hs : RegistryJoinInv s) (hsd : JoinInv sd) :
    RegistryJoinInv (setSession s k sd) := by
  intro e he
  rcases mem_setSession s k sd e he with h | h
  · rw [h]; exact hsd
  · exact hs e h

theorem RegistryJoinInv_ensure (s : Sessions) (k : String)
    (hs : RegistryJoinInv s) : RegistryJoinInv (ensureSession s k) := by
  unfold ensureSession
  split
  · exact hs
  · intro e he
    rcases List.mem_append.mp he with h | h
    · exact hs e h
    · simp only [List.mem_singleton] at h
      rw [h]
      intro x
      simp [joinCount]

theorem JoinInv_users (sd : SessionData) (h : JoinInv sd) (us : List UserData) :
    JoinInv { sd with users := us } :=
  fun x => h x

theorem JoinInv_updateFirst_setSid (sd : SessionData) (h : JoinInv sd)
    (p : Approval → Bool) (rsid : String) :
    JoinInv { sd with pending_approvals := (updateFirst p (Approval.setSid rsid)
        sd.pending_approvals) } := by
  intro x
  show ((updateFirst p (Approval.setSid rsid) sd.pending_approvals).filter
      (fun a => a.getSessionId == x && a.type == "join")).length ≤ 1
  rw [filter_length_updateFirst p (fun a => a.getSessionId == x && a.type == "join")
    (Approval.setSid rsid) (fun a => by simp) sd.pending_approvals]
  exact h x

theorem JoinInv_filter (sd : SessionData) (h : JoinInv sd) (p : Approval → Bool) :
    JoinInv { sd with pending_approvals := sd.pending_approvals.filter p } := by
  intro x
  exact le_trans (filter_filter_length_le p _ sd.pending_approvals) (h x)

theorem JoinInv_users_filter (sd : SessionData) (h : JoinInv sd)
    (us : List UserData) (p : Approval → Bool) :
    JoinInv { sd with users := us, pending_approvals := sd.pending_approvals.filter p } :=
  fun x => JoinInv_filter sd h p x

theorem length_filter_singleton (q : α → Bool) (a : α) :
    (List.filter q [a]).length ≤ 1 := by
  cases hq : q a <;> simp [List.filter_cons, hq]

theorem JoinInv_append_join (sd : SessionData) (h : JoinInv sd)
    (apid un : String) (anon : Bool) (usid : Option String) (rsid : String)
    (hnone : sd.pending_approvals.find?
        (fun a => a.getSessionId == usid && a.type == "join") = none) :
    JoinInv { sd with pending_approvals :=
        sd.pending_approvals ++ [Approval.join apid un anon usid rsid] } := by
  intro x
  show ((sd.pending_approvals ++ [Approval.join apid un anon usid rsid]).filter
      (fun a => a.getSessionId == x && a.type == "join")).length ≤ 1
  rw [List.filter_append, List.length_append]
  cases hx : ((Approval.join apid un anon usid rsid).getSessionId == x) with
  | false =>
    simp only [List.filter_cons, List.filter_nil, hx, Bool.false_and, if_false]
    simpa using h x
  | true =>
    have hxe : usid = x := by
      simpa [Approval.getSessionId] using hx
    subst hxe
    have hzero : sd.pending_approvals.filter
        (fun a => a.getSessionId == usid && a.type == "join") = [] :=
      List.filter_eq_nil_iff.mpr (fun a ha => List.find?_eq_none.mp hnone a ha)
    rw [hzero]
    simpa using length_filter_singleton
      (fun a => a.getSessionId == usid && a.type == "join")
      (Approval.join apid un anon usid rsid)

/-- C2: the spec claims that after a transport-level disconnect, no
session retains a PendingApproval whose requester connection id equals
the disconnected id, regardless of whether a Participant was found.  The
code contradicts this (and its own `Also remove from pending approvals`
comment): when a Participant with the disconnected id is found, the
`break` fires before that session's purge statement, so the purge is
skipped for that session and every later one.  Concretely: connection
`c1` is both a roster participant and the requester of a pending
`join`-kind approval in session `s1`; after `handle_disconnect` the
participant is gone but the approval — whose `sid` still equals the
disconnected `c1` — survives. -/
theorem C2_disconnect_leaves_dangling_approval :
    handle_disconnect
        [("s1", ⟨[⟨"c1", "bob", "#FF6B6B", none, true, some "t1", false⟩],
                 [Approval.join "ap1" "carol" true (some "t2") "c1"]⟩)] "c1"
      = { sessions := [("s1", ⟨[], [Approval.join "ap1" "carol" true (some "t2") "c1"]⟩)],
          events := [⟨"user_left", .toRoom "s1", false, .leftInfo "c1" "bob"⟩] }
    ∧ (Approval.join "ap1" "carol" true (some "t2") "c1").getSid = some "c1" := by
  decide

/-- C1 counterexample: `resolveWrite` with an approval id that matches an
outstanding `save`-kind PendingApproval, `approved = true`, and a path
(`../x`) that fails the workspace-confinement check: the handler returns
early, so the PendingApproval is NOT removed and NO `approval_result`
event is emitted — only a private `error` notice — refuting the claim at
this input. -/
theorem C1_unsafe_path_counterexample :
    handle_approval_response [⟨"s1", 1, "/ws", 5, true⟩]
        [("s1", ⟨[], [Approval.save "ap2" "../x" "data" "bob"]⟩)] "s1" "ap2" true true 7
      = some { sessions := [("s1", ⟨[], [Approval.save "ap2" "../x" "data" "bob"]⟩)],
               events := [⟨"error", .caller, true, .message "Invalid path"⟩] }
    ∧ is_safe_path "/ws" "../x" = false := by
  decide

/-- C1 (amended): for every `resolveWrite` whose approval id matches an
outstanding PendingApproval, EXCEPT when the write is approved,
`save`-kind and its path fails the workspace-confinement check, the
handler emits exactly one room-wide `approval_result` event carrying the
approval id and the boolean outcome and removes every pending entry with
that id — in particular also when the file write itself fails
(`writeOk = false`). -/
theorem C1_resolve_write_result_and_removal (projects : List Project)
    (sessions : Sessions) (session_id approval_id : String)
    (approved writeOk : Bool) (mtime : Nat) (sd : SessionData) (approval : Approval)
    (hs : lookupSession sessions session_id = some sd)
    (hf : sd.pending_approvals.find? (fun a => a.id == approval_id) = some approval)
    (hok : (approved && approval.type == "save") = false ∨
      ∃ p, queryProject projects session_id = some p ∧
        is_safe_path p.workspace_path approval.pathD = true) :
    (handle_approval_response projects sessions session_id approval_id approved
        writeOk mtime).map
        (fun o => (o.sessions, o.events.filter (fun e => e.name == "approval_result")))
      = some (setSession sessions session_id
                { sd with pending_approvals :=
                    sd.pending_approvals.filter (fun a => !(a.id == approval_id)) },
              [⟨"approval_result", .toRoom session_id, true,
                 .resultInfo approval_id approved⟩]) := by
  simp only [handle_approval_response, hs, hf]
  cases hc : (approved && approval.type == "save") with
  | false =>
    simp [hc]
  | true =>
    rcases hok with hk | ⟨p, hp, hsafe⟩
    · rw [hc] at hk; exact absurd hk (by simp)
    · simp only [hc, if_true, hp, hsafe, Bool.not_true, Bool.false_eq_true, if_false]
      cases writeOk <;> simp

/-- Witness for C1: a concrete rejection — the approval is removed and a
single room-wide `approval_result{approved: false}` is emitted. -/
theorem C1_witness :
    (handle_approval_response [⟨"s1", 1, "/ws", 5, true⟩]
        [("s1", ⟨[], [Approval.save "ap2" "main.py" "data" "bob"]⟩)] "s1" "ap2" false
        true 7).map
        (fun o => (o.sessions, o.events.filter (fun e => e.name == "approval_result")))
      = some (setSession [("s1", ⟨[], [Approval.save "ap2" "main.py" "data" "bob"]⟩)] "s1"
                { users := [], pending_approvals :=
                    [Approval.save "ap2" "main.py" "data" "bob"].filter
                      (fun a => !(a.id == "ap2")) },
              [⟨"approval_result", .toRoom "s1", true, .resultInfo "ap2" false⟩]) :=
  C1_resolve_write_result_and_removal [⟨"s1", 1, "/ws", 5, true⟩]
    [("s1", ⟨[], [Approval.save "ap2" "main.py" "data" "bob"]⟩)] "s1" "ap2" false true 7
    ⟨[], [Approval.save "ap2" "main.py" "data" "bob"]⟩
    (Approval.save "ap2" "main.py" "data" "bob") (by decide) (by decide)
    (Or.inl (by decide))

/-- C10: the write-resolution handler looks up the PendingApproval by id
alone, with no kind filter.  When the matched approval is `join`-kind,
the guard `approved and approval['type'] == 'save'` is false for either
outcome, so the handler removes the join-kind entry and broadcasts a
room-wide `approval_result` for it — and those are its only effects: no
`join_approved`/`join_rejected` notification reaches the requester and
no file is written. -/
theorem C10_resolve_write_consumes_join_approval (projects : List Project)
    (sessions : Sessions) (session_id approval_id : String) (approved writeOk : Bool)
    (mtime : Nat) (sd : SessionData) (i un : String) (an : Bool)
    (si : Option String) (rsid : String)
    (hs : lookupSession sessions session_id = some sd)
    (hf : sd.pending_approvals.find? (fun a => a.id == approval_id)
        = some (Approval.join i un an si rsid)) :
    handle_approval_response projects sessions session_id approval_id approved
        writeOk mtime
      = some { sessions := setSession sessions session_id
                 { sd with pending_approvals :=
                     sd.pending_approvals.filter (fun a => !(a.id == approval_id)) },
               events := [⟨"approval_result", .toRoom session_id, true,
                            .resultInfo approval_id approved⟩],
               writes := [] } := by
  simp only [handle_approval_response, hs, hf]
  have : (approved && (Approval.join i un an si rsid).type == "save") = false := by
    simp [Approval.type]
  simp [this]

/-- Witness for C10: a session holding only a `join`-kind approval;
`resolveWrite` on its id with `approved = true` removes it and broadcasts
`approval_result`. -/
theorem C10_witness :
    handle_approval_response [] [("s1", ⟨[], [Approval.join "ap1" "carol" true (some "t2") "c9"]⟩)]
        "s1" "ap1" true true 0
      = some { sessions := setSession
                 [("s1", ⟨[], [Approval.join "ap1" "carol" true (some "t2") "c9"]⟩)] "s1"
                 { users := [], pending_approvals :=
                     [Approval.join "ap1" "carol" true (some "t2") "c9"].filter
                       (fun a => !(a.id == "ap1")) },
               events := [⟨"approval_result", .toRoom "s1", true, .resultInfo "ap1" true⟩],
               writes := [] } :=
  C10_resolve_write_consumes_join_approval []
    [("s1", ⟨[], [Approval.join "ap1" "carol" true (some "t2") "c9"]⟩)] "s1" "ap1" true
    true 0 ⟨[], [Approval.join "ap1" "carol" true (some "t2") "c9"]⟩ "ap1" "carol" true
    (some "t2") "c9" (by decide) (by decide)

/-- C5: once a first `resolveJoin` (either outcome, including the
capacity-refusal path) has consumed a `join`-kind PendingApproval, the
resulting state holds no `join`-kind approval with that id, and a second
`resolveJoin` on the same id returns the state unchanged and emits
nothing. -/
theorem C5_resolve_join_at_most_once (projects : List Project) (sessions : Sessions)
    (session_id approval_id : String) (approved approved2 : Bool)
    (color color2 : String) (out : HandlerOut) (sd : SessionData)
    (hs : lookupSession sessions session_id = some sd)
    (hf : (sd.pending_approvals.find?
        (fun a => a.id == approval_id && a.type == "join")).isSome)
    (h1 : handle_join_approval_response projects sessions session_id approval_id
        approved color = some out) :
    ((lookupSession out.sessions session_id).getD ⟨[], []⟩).pending_approvals.find?
        (fun a => a.id == approval_id && a.type == "join") = none
    ∧ handle_join_approval_response projects out.sessions session_id approval_id
        approved2 color2 = some { sessions := out.sessions, events := [], writes := [] } := by
  rcases Option.isSome_iff_exists.mp hf with ⟨approval, hap⟩
  have hremove : ∀ sd' : SessionData,
      sd'.pending_approvals =
        sd.pending_approvals.filter (fun a => !(a.id == approval_id)) →
      out.sessions = setSession sessions session_id sd' →
      ((lookupSession out.sessions session_id).getD ⟨[], []⟩).pending_approvals.find?
          (fun a => a.id == approval_id && a.type == "join") = none
      ∧ handle_join_approval_response projects out.sessions session_id approval_id
          approved2 color2 = some { sessions := out.sessions, events := [], writes := [] } := by
    intro sd' hpend hout
    have hlk : lookupSession out.sessions session_id = some sd' := by
      rw [hout]
      exact lookupSession_setSession_self sessions session_id sd' (by simp [hs])
    have hnone : sd'.pending_approvals.find?
        (fun a => a.id == approval_id && a.type == "join") = none := by
      rw [hpend]
      exact find?_filter_removed sd.pending_approvals approval_id _
        (fun a ha => (Bool.and_eq_true _ _ |>.mp ha).1)
    constructor
    · rw [hlk]
      simpa using hnone
    · simp only [handle_join_approval_response, hlk, hnone]
  simp only [handle_join_approval_response, hs, hap] at h1
  cases approved with
  | false =>
    simp only [Bool.false_eq_true, if_false, Option.some.injEq] at h1
    exact hremove _ rfl (by rw [← h1])
  | true =>
    simp only [if_true] at h1
    cases hq : queryProject projects session_id with
    | none => rw [hq] at h1; simp at h1
    | some p =>
      rw [hq] at h1
      by_cases hfull : sd.users.length ≥ p.max_users
      · simp only [hfull, if_true, Option.some.injEq] at h1
        exact hremove _ rfl (by rw [← h1])
      · simp only [hfull, if_false, Option.some.injEq] at h1
        exact hremove _ rfl (by rw [← h1])

/-- Witness for C5: concrete rejection of a pending join approval,
followed by a second `resolveJoin` on the same id, which is a silent
no-op. -/
theorem C5_witness :
    ((lookupSession [("s1", (⟨[], []⟩ : SessionData))] "s1").getD
        ⟨[], []⟩).pending_approvals.find?
        (fun a => a.id == "ap1" && a.type == "join") = none
    ∧ handle_join_approval_response [] [("s1", (⟨[], []⟩ : SessionData))] "s1" "ap1"
        true "#998" = some { sessions := [("s1", (⟨[], []⟩ : SessionData))],
                             events := [], writes := [] } :=
  C5_resolve_join_at_most_once [] [("s1", ⟨[], [Approval.join "ap1" "carol" true (some "t2") "c9"]⟩)]
    "s1" "ap1" false true "#999" "#998"
    { sessions := [("s1", ⟨[], []⟩)],
      events := [⟨"join_rejected", .toRoom "c9", true,
                   .message "Your request to join was denied"⟩] }
    ⟨[], [Approval.join "ap1" "carol" true (some "t2") "c9"]⟩
    (by decide) (by decide) (by decide)

/-- C9: every `cursor_update` broadcast produced by `cursor_move` uses
`include_self=False`, so it is never delivered back to the originating
connection (whatever the room membership); the `user_file_change`
broadcast produced by `file_open` uses `include_self=True`, so whenever
the originating connection is in the session room it receives the
broadcast too. -/
theorem C9_cursor_excludes_self_file_open_includes_self :
    (∀ (sessions : Sessions) (rsid session_id position file : String)
        (roomOf : String → List String) (e : Event),
        e ∈ (handle_cursor_move sessions rsid session_id position file).events →
        deliveredTo roomOf rsid e rsid = false)
    ∧ (∀ (sessions : Sessions) (rsid session_id file : String)
        (roomOf : String → List String),
        (roomOf session_id).contains rsid = true →
        (handle_file_open sessions rsid session_id file).events
          = [⟨"user_file_change", .toRoom session_id, true, .fileChangeInfo rsid file⟩]
        ∧ deliveredTo roomOf rsid
            ⟨"user_file_change", .toRoom session_id, true, .fileChangeInfo rsid file⟩
            rsid = true) := by
  constructor
  · intro sessions rsid session_id position file roomOf e he
    simp only [handle_cursor_move] at he
    split at he
    · simp at he
    · split at he
      · simp at he
      · simp only [List.mem_singleton] at he
        subst he
        simp [deliveredTo]
  · intro sessions rsid session_id file roomOf hmem
    refine ⟨by simp [handle_file_open], ?_⟩
    simp only [deliveredTo, Bool.true_or, Bool.and_true]
    exact hmem

/-- Witness for C9: a concrete room containing the sender — the
`cursor_update` is not delivered back, the `user_file_change` is. -/
theorem C9_witness :
    deliveredTo (fun _ => ["c1", "c2"]) "c1"
        ⟨"cursor_update", .toRoom "s1", false, .cursorInfo "c1" "0" "f" "#FF6B6B" "bob"⟩
        "c1" = false
    ∧ (handle_file_open [] "c1" "s1" "f").events
        = [⟨"user_file_change", .toRoom "s1", true, .fileChangeInfo "c1" "f"⟩]
    ∧ deliveredTo (fun _ => ["c1", "c2"]) "c1"
        ⟨"user_file_change", .toRoom "s1", true, .fileChangeInfo "c1" "f"⟩ "c1" = true := by
  have h1 := C9_cursor_excludes_self_file_open_includes_self.1
    [("s1", ⟨[⟨"c1", "bob", "#FF6B6B", none, true, some "t1", false⟩], []⟩)]
    "c1" "s1" "0" "f" (fun _ => ["c1", "c2"])
    ⟨"cursor_update", .toRoom "s1", false, .cursorInfo "c1" "0" "f" "#FF6B6B" "bob"⟩
    (by decide)
  have h2 := C9_cursor_excludes_self_file_open_includes_self.2
    [] "c1" "s1" "f" (fun _ => ["c1", "c2"]) (by decide)
  exact ⟨h1, h2.1, h2.2⟩

/-- C4: (a) a save by the session's admin never touches
`active_sessions` — in particular it creates no PendingApproval — and on
a confined path with a successful write it writes the file at once and
broadcasts `file_saved` room-wide; (b) a save by a non-admin performs no
write and appends exactly one `save`-kind PendingApproval, notifying the
admin room; (c) the write-resolution handler performs a file write only
when `approved = true`. -/
theorem C4_admin_saves_direct_nonadmin_saves_gated :
    (∀ (projects : List Project) (sessions : Sessions) (huid : Option Nat)
        (session_id path content user_info approval_id : String)
        (writeOk : Bool) (mtime : Nat) (p : Project) (out : SaveOut),
        queryProject projects session_id = some p →
        (huid == some p.admin_id) = true →
        save_file projects sessions huid session_id path content user_info approval_id
            writeOk mtime = some out →
        out.sessions = sessions
        ∧ (is_safe_path p.workspace_path path = true → writeOk = true →
            out.writes = [(os_path_join p.workspace_path path, content)]
            ∧ out.events = [⟨"file_saved", .toRoom session_id, true,
                              .savedInfo path user_info content mtime⟩]
            ∧ out.result = .success))
    ∧ (∀ (projects : List Project) (sessions : Sessions) (huid : Option Nat)
        (session_id path content user_info approval_id : String)
        (writeOk : Bool) (mtime : Nat) (p : Project),
        queryProject projects session_id = some p →
        (huid == some p.admin_id) = false →
        (save_file projects sessions huid session_id path content user_info approval_id
            writeOk mtime).map
            (fun o => (((lookupSession o.sessions session_id).getD ⟨[], []⟩).pending_approvals,
                       o.writes, o.result))
          = some (((lookupSession sessions session_id).getD ⟨[], []⟩).pending_approvals
                    ++ [Approval.save approval_id path content user_info],
                  [], .pendingApproval))
    ∧ (∀ (projects : List Project) (sessions : Sessions)
        (session_id approval_id : String) (approved writeOk : Bool) (mtime : Nat)
        (out : HandlerOut),
        handle_approval_response projects sessions session_id approval_id approved
            writeOk mtime = some out →
        out.writes ≠ [] → approved = true) := by
  refine ⟨?_, ?_, ?_⟩
  · intro projects sessions huid session_id path content user_info approval_id
      writeOk mtime p out hq hadm hout
    simp only [save_file, hq, hadm, if_true] at hout
    split at hout
    · rename_i hbad
      simp only [Option.some.injEq] at hout
      subst hout
      refine ⟨rfl, fun hc _ => ?_⟩
      rw [hc] at hbad
      simp at hbad
    · split at hout
      · simp only [Option.some.injEq] at hout
        subst hout
        exact ⟨rfl, fun _ _ => ⟨rfl, rfl, rfl⟩⟩
      · exact absurd hout (by simp)
  · intro projects sessions huid session_id path content user_info approval_id
      writeOk mtime p hq hadm
    simp only [save_file, hq, hadm, Bool.false_eq_true, if_false, Option.map_some']
    have hset := lookupSession_setSession_self (ensureSession sessions session_id)
      session_id
      { (lookupSession (ensureSession sessions session_id) session_id).getD ⟨[], []⟩ with
        pending_approvals :=
          ((lookupSession (ensureSession sessions session_id) session_id).getD
            ⟨[], []⟩).pending_approvals
          ++ [Approval.save approval_id path content user_info] }
      (lookupSession_isSome_ensure sessions session_id)
    simp only [hset, Option.getD_some, Option.some.injEq]
    rw [lookupSession_ensureSession]
    simp
  · intro projects sessions session_id approval_id approved writeOk mtime out hout hw
    simp only [handle_approval_response] at hout
    split at hout
    · simp only [Option.some.injEq] at hout
      subst hout
      simp at hw
    · split at hout
      · simp only [Option.some.injEq] at hout
        subst hout
        simp at hw
      · split at hout
        · rename_i hc
          exact (Bool.and_eq_true _ _ |>.mp hc).1
        · simp only [Option.some.injEq] at hout
          subst hout
          simp at hw

/-- Witness for C4: a concrete admin save (direct write, `file_saved`
broadcast, no approval) and a concrete non-admin save (one `save`-kind
approval appended, no write). -/
theorem C4_witness :
    ([("s1", (⟨[], []⟩ : SessionData))] : Sessions) = [("s1", ⟨[], []⟩)]
    ∧ (is_safe_path "/ws" "main.py" = true → true = true →
        ([("/ws/main.py", "x=1")] : List (String × String)) = [("/ws/main.py", "x=1")]
        ∧ ([⟨"file_saved", .toRoom "s1", true, .savedInfo "main.py" "alice" "x=1" 3⟩]
            : List Event)
          = [⟨"file_saved", .toRoom "s1", true, .savedInfo "main.py" "alice" "x=1" 3⟩]
        ∧ (SaveResult.success = SaveResult.success))
    ∧ (save_file [⟨"s1", 1, "/ws", 5, true⟩] [("s1", ⟨[], []⟩)] (some 2) "s1" "main.py"
          "x=1" "bob" "ap9" true 3).map
          (fun o => (((lookupSession o.sessions "s1").getD ⟨[], []⟩).pending_approvals,
                     o.writes, o.result))
        = some (((lookupSession [("s1", (⟨[], []⟩ : SessionData))] "s1").getD
                   ⟨[], []⟩).pending_approvals ++ [Approval.save "ap9" "main.py" "x=1" "bob"],
                [], .pendingApproval) := by
  refine ⟨?_, ?_, ?_⟩
  · exact (C4_admin_saves_direct_nonadmin_saves_gated.1 [⟨"s1", 1, "/ws", 5, true⟩]
      [("s1", ⟨[], []⟩)] (some 1) "s1" "main.py" "x=1" "alice" "ap8" true 3
      ⟨"s1", 1, "/ws", 5, true⟩
      ⟨[("s1", ⟨[], []⟩)],
        [⟨"file_saved", .toRoom "s1", true, .savedInfo "main.py" "alice" "x=1" 3⟩],
        [("/ws/main.py", "x=1")], .success⟩
      (by decide) (by decide) (by decide)).1
  · exact (C4_admin_saves_direct_nonadmin_saves_gated.1 [⟨"s1", 1, "/ws", 5, true⟩]
      [("s1", ⟨[], []⟩)] (some 1) "s1" "main.py" "x=1" "alice" "ap8" true 3
      ⟨"s1", 1, "/ws", 5, true⟩
      ⟨[("s1", ⟨[], []⟩)],
        [⟨"file_saved", .toRoom "s1", true, .savedInfo "main.py" "alice" "x=1" 3⟩],
        [("/ws/main.py", "x=1")], .success⟩
      (by decide) (by decide) (by decide)).2
  · exact C4_admin_saves_direct_nonadmin_saves_gated.2.1 [⟨"s1", 1, "/ws", 5, true⟩]
      [("s1", ⟨[], []⟩)] (some 2) "s1" "main.py" "x=1" "bob" "ap9" true 3
      ⟨"s1", 1, "/ws", 5, true⟩ (by decide) (by decide)

/-- C7 counterexample: participant `bob` (stable identity `t1`,
`is_admin = false`) reconnects with a new connection id `c9` while the
transport's HTTP session authenticates as the project admin
(`user_id = 1 = admin_id`).  The reconnect branch then rewrites not only
the connection id but also sets `is_admin = True`, so the `isAdmin`
field is NOT left unchanged, refuting the claim at this input. -/
theorem C7_admin_reconnect_flips_is_admin :
    (handle_join_session [⟨"s1", 1, "/ws", 5, true⟩]
        [("s1", ⟨[⟨"c1", "bob", "#FF6B6B", none, true, some "t1", false⟩], []⟩)]
        "c9" (some 1) "s1" "bob" true (some "t1") "#4ECDC4" "apX").sessions
      = [("s1", ⟨[⟨"c9", "bob", "#FF6B6B", none, true, some "t1", true⟩], []⟩)]
    ∧ (⟨"c1", "bob", "#FF6B6B", none, true, some "t1", false⟩ : UserData).is_admin
        = false := by
  decide

/-- C7 (amended): a reconnect with a previously-seen stable identity (no
pending join approval for it) leaves `len(participants)` and every
participant's `color` and `displayName` unchanged, leaves the pending
list unchanged, and — provided the reconnecting transport does not
authenticate as the project admin — leaves every `isAdmin` flag
unchanged too; only the connection id is rewritten in place (when the
transport does authenticate as the admin, `is_admin` is additionally set
to true on the matched participant). -/
theorem C7_reconnect_preserves_roster (projects : List Project) (sessions : Sessions)
    (request_sid : String) (http_user_id : Option Nat) (session_id username : String)
    (is_anonymous : Bool) (usid : Option String) (color approval_id : String)
    (p : Project) (sd : SessionData) (u : UserData)
    (hq : queryProject projects session_id = some p)
    (hactive : p.active = true)
    (hs : lookupSession sessions session_id = some sd)
    (hpend : sd.pending_approvals.find?
        (fun a => a.getSessionId == usid && a.type == "join") = none)
    (hu : sd.users.find? (fun w => w.sessionId == usid) = some u) :
    ((lookupSession (handle_join_session projects sessions request_sid http_user_id
        session_id username is_anonymous usid color approval_id).sessions
        session_id).getD ⟨[], []⟩).users.length = sd.users.length
    ∧ ((lookupSession (handle_join_session projects sessions request_sid http_user_id
        session_id username is_anonymous usid color approval_id).sessions
        session_id).getD ⟨[], []⟩).users.map (fun w => w.color)
      = sd.users.map (fun w => w.color)
    ∧ ((lookupSession (handle_join_session projects sessions request_sid http_user_id
        session_id username is_anonymous usid color approval_id).sessions
        session_id).getD ⟨[], []⟩).users.map (fun w => w.username)
      = sd.users.map (fun w => w.username)
    ∧ ((http_user_id == some p.admin_id) = false →
        ((lookupSession (handle_join_session projects sessions request_sid http_user_id
            session_id username is_anonymous usid color approval_id).sessions
            session_id).getD ⟨[], []⟩).users.map (fun w => w.is_admin)
          = sd.users.map (fun w => w.is_admin))
    ∧ ((lookupSession (handle_join_session projects sessions request_sid http_user_id
        session_id username is_anonymous usid color approval_id).sessions
        session_id).getD ⟨[], []⟩).pending_approvals = sd.pending_approvals := by
  have hens : ensureSession sessions session_id = sessions :=
    ensureSession_of_isSome sessions session_id (by simp [hs])
  have hout : (handle_join_session projects sessions request_sid http_user_id
      session_id username is_anonymous usid color approval_id).sessions
      = setSession sessions session_id
          { sd with users := (updateFirst (fun w => w.sessionId == usid)
              (fun w => if (http_user_id == some p.admin_id) = true then
                  { w with sid := request_sid, is_admin := true }
                else { w with sid := request_sid }) sd.users) } := by
    simp only [handle_join_session, hq, hactive, Bool.not_true, Bool.false_eq_true,
      if_false, hens, hs, Option.getD_some, hpend, Option.isSome_none, hu]
  rw [hout, lookupSession_setSession_self sessions session_id _ (by simp [hs]),
    Option.getD_some]
  refine ⟨updateFirst_length _ _ _, ?_, ?_, ?_, rfl⟩
  · apply updateFirst_map_of_preserve
    intro a
    by_cases h : (http_user_id == some p.admin_id) = true <;> simp [h]
  · apply updateFirst_map_of_preserve
    intro a
    by_cases h : (http_user_id == some p.admin_id) = true <;> simp [h]
  · intro hadm
    apply updateFirst_map_of_preserve
    intro a
    simp [hadm]

/-- Witness for C7: a plain (non-admin-credentialed) reconnect of `bob`
with a fresh connection id. -/
theorem C7_witness :
    ((lookupSession (handle_join_session [⟨"s1", 1, "/ws", 5, true⟩]
        [("s1", ⟨[⟨"c1", "bob", "#FF6B6B", none, true, some "t1", false⟩], []⟩)]
        "c9" none "s1" "bob" true (some "t1") "#4ECDC4" "apX").sessions
        "s1").getD ⟨[], []⟩).users.length
      = [(⟨"c1", "bob", "#FF6B6B", none, true, some "t1", false⟩ : UserData)].length
    ∧ ((lookupSession (handle_join_session [⟨"s1", 1, "/ws", 5, true⟩]
        [("s1", ⟨[⟨"c1", "bob", "#FF6B6B", none, true, some "t1", false⟩], []⟩)]
        "c9" none "s1" "bob" true (some "t1") "#4ECDC4" "apX").sessions
        "s1").getD ⟨[], []⟩).users.map (fun w => w.color)
      = [(⟨"c1", "bob", "#FF6B6B", none, true, some "t1", false⟩ : UserData)].map
          (fun w => w.color)
    ∧ ((lookupSession (handle_join_session [⟨"s1", 1, "/ws", 5, true⟩]
        [("s1", ⟨[⟨"c1", "bob", "#FF6B6B", none, true, some "t1", false⟩], []⟩)]
        "c9" none "s1" "bob" true (some "t1") "#4ECDC4" "apX").sessions
        "s1").getD ⟨[], []⟩).users.map (fun w => w.username)
      = [(⟨"c1", "bob", "#FF6B6B", none, true, some "t1", false⟩ : UserData)].map
          (fun w => w.username)
    ∧ (((none : Option Nat) == some 1) = false →
        ((lookupSession (handle_join_session [⟨"s1", 1, "/ws", 5, true⟩]
            [("s1", ⟨[⟨"c1", "bob", "#FF6B6B", none, true, some "t1", false⟩], []⟩)]
            "c9" none "s1" "bob" true (some "t1") "#4ECDC4" "apX").sessions
            "s1").getD ⟨[], []⟩).users.map (fun w => w.is_admin)
          = [(⟨"c1", "bob", "#FF6B6B", none, true, some "t1", false⟩ : UserData)].map
              (fun w => w.is_admin))
    ∧ ((lookupSession (handle_join_session [⟨"s1", 1, "/ws", 5, true⟩]
        [("s1", ⟨[⟨"c1", "bob", "#FF6B6B", none, true, some "t1", false⟩], []⟩)]
        "c9" none "s1" "bob" true (some "t1") "#4ECDC4" "apX").sessions
        "s1").getD ⟨[], []⟩).pending_approvals = [] :=
  C7_reconnect_preserves_roster [⟨"s1", 1, "/ws", 5, true⟩]
    [("s1", ⟨[⟨"c1", "bob", "#FF6B6B", none, true, some "t1", false⟩], []⟩)]
    "c9" none "s1" "bob" true (some "t1") "#4ECDC4" "apX"
    ⟨"s1", 1, "/ws", 5, true⟩
    ⟨[⟨"c1", "bob", "#FF6B6B", none, true, some "t1", false⟩], []⟩
    ⟨"c1", "bob", "#FF6B6B", none, true, some "t1", false⟩
    (by decide) (by decide) (by decide) (by decide) (by decide)

/-- C6 counterexample: the admin closes session `s1` (the project row is
flagged inactive and `session_closed` is broadcast); a `resolveWrite`
against the closed session with an outstanding save approval is then NOT
refused: it writes the file, broadcasts `file_saved` and
`approval_result`, and removes the approval — mutating session state —
refuting the claim that every further mutating inbound operation is
refused with a SessionInactive-style error. -/
theorem C6_closed_session_still_mutable :
    (close_session [⟨"s1", 1, "/ws", 5, true⟩] (some 1) "s1").1
      = [⟨"s1", 1, "/ws", 5, false⟩]
    ∧ handle_approval_response [⟨"s1", 1, "/ws", 5, false⟩]
        [("s1", ⟨[], [Approval.save "ap2" "main.py" "data" "bob"]⟩)] "s1" "ap2" true
        true 7
      = some { sessions := [("s1", ⟨[], []⟩)],
               events := [⟨"file_saved", .toRoom "s1", true,
                            .savedInfo "main.py" "bob" "data" 7⟩,
                          ⟨"approval_result", .toRoom "s1", true,
                            .resultInfo "ap2" true⟩],
               writes := [("/ws/main.py", "data")] } := by
  decide

/-- C6 (amended): after `close_session` flags the project inactive, only
the join handler refuses (with the `Session not found or inactive`
error, leaving state untouched); the write-resolution and
join-resolution handlers never consult the `active` flag and proceed
exactly as on an active session — shown here on the rejection paths,
which go through without touching the project row at all. -/
theorem C6_only_join_checks_active :
    (∀ (projects : List Project) (sessions : Sessions) (request_sid : String)
        (http_user_id : Option Nat) (session_id username : String) (is_anonymous : Bool)
        (usid : Option String) (color approval_id : String) (p : Project),
        queryProject projects session_id = some p → p.active = false →
        handle_join_session projects sessions request_sid http_user_id session_id
            username is_anonymous usid color approval_id
          = { sessions := sessions,
              events := [⟨"error", .caller, true,
                           .message "Session not found or inactive"⟩] })
    ∧ (∀ (projects : List Project) (sessions : Sessions)
        (session_id approval_id : String) (writeOk : Bool) (mtime : Nat)
        (p : Project) (sd : SessionData) (approval : Approval),
        queryProject projects session_id = some p → p.active = false →
        lookupSession sessions session_id = some sd →
        sd.pending_approvals.find? (fun a => a.id == approval_id) = some approval →
        handle_approval_response projects sessions session_id approval_id false
            writeOk mtime
          = some { sessions := setSession sessions session_id
                     { sd with pending_approvals :=
                         sd.pending_approvals.filter (fun a => !(a.id == approval_id)) },
                   events := [⟨"approval_result", .toRoom session_id, true,
                                .resultInfo approval_id false⟩] })
    ∧ (∀ (projects : List Project) (sessions : Sessions)
        (session_id approval_id color : String) (p : Project) (sd : SessionData)
        (approval : Approval),
        queryProject projects session_id = some p → p.active = false →
        lookupSession sessions session_id = some sd →
        sd.pending_approvals.find? (fun a => a.id == approval_id && a.type == "join")
          = some approval →
        handle_join_approval_response projects sessions session_id approval_id false
            color
          = some { sessions := setSession sessions session_id
                     { sd with pending_approvals :=
                         sd.pending_approvals.filter (fun a => !(a.id == approval_id)) },
                   events := [⟨"join_rejected", .toRoom approval.sidD, true,
                                .message "Your request to join was denied"⟩] }) := by
  refine ⟨?_, ?_, ?_⟩
  · intro projects sessions request_sid http_user_id session_id username is_anonymous
      usid color approval_id p hq hactive
    simp [handle_join_session, hq, hactive]
  · intro projects sessions session_id approval_id writeOk mtime p sd approval hq
      hactive hs hf
    simp [handle_approval_response, hs, hf]
  · intro projects sessions session_id approval_id color p sd approval hq hactive hs hf
    simp [handle_join_approval_response, hs, hf]

/-- Witness for C6 (amended): concrete closed project; the join is
refused while a write rejection still removes the approval and emits
`approval_result`. -/
theorem C6_witness :
    handle_join_session [⟨"s1", 1, "/ws", 5, false⟩] [] "c1" none "s1" "bob" true
        (some "t1") "#FF6B6B" "apX"
      = { sessions := [],
          events := [⟨"error", .caller, true,
                       .message "Session not found or inactive"⟩] }
    ∧ handle_approval_response [⟨"s1", 1, "/ws", 5, false⟩]
        [("s1", ⟨[], [Approval.save "ap2" "main.py" "data" "bob"]⟩)] "s1" "ap2" false
        true 7
      = some { sessions := setSession
                 [("s1", ⟨[], [Approval.save "ap2" "main.py" "data" "bob"]⟩)] "s1"
                 { users := [], pending_approvals :=
                     [Approval.save "ap2" "main.py" "data" "bob"].filter
                       (fun a => !(a.id == "ap2")) },
               events := [⟨"approval_result", .toRoom "s1", true,
                            .resultInfo "ap2" false⟩] } := by
  constructor
  · exact C6_only_join_checks_active.1 [⟨"s1", 1, "/ws", 5, false⟩] [] "c1" none "s1"
      "bob" true (some "t1") "#FF6B6B" "apX" ⟨"s1", 1, "/ws", 5, false⟩ (by decide)
      (by decide)
  · exact C6_only_join_checks_active.2.1 [⟨"s1", 1, "/ws", 5, false⟩]
      [("s1", ⟨[], [Approval.save "ap2" "main.py" "data" "bob"]⟩)] "s1" "ap2" true 7
      ⟨"s1", 1, "/ws", 5, false⟩ ⟨[], [Approval.save "ap2" "main.py" "data" "bob"]⟩
      (Approval.save "ap2" "main.py" "data" "bob") (by decide) (by decide) (by decide)
      (by decide)

/-- C3: the capacity invariant `len(participants) <= max_users` is
preserved by every join-session event (direct admit, reconnect, pending
re-arm, or new request) and by every join-approval resolution; moreover
the capacity check is re-validated at approval time: an approval
resolved against a full roster refuses with the `Session is full` error
sent to the waiting connection and removes the pending entry without
adding a participant. -/
theorem C3_capacity_invariant :
    (∀ (projects : List Project) (sessions : Sessions) (request_sid : String)
        (http_user_id : Option Nat) (session_id username : String) (is_anonymous : Bool)
        (usid : Option String) (color approval_id : String) (p : Project),
        queryProject projects session_id = some p →
        usersLen sessions session_id ≤ p.max_users →
        usersLen (handle_join_session projects sessions request_sid http_user_id
            session_id username is_anonymous usid color approval_id).sessions
            session_id ≤ p.max_users)
    ∧ (∀ (projects : List Project) (sessions : Sessions)
        (session_id approval_id : String) (approved : Bool) (color : String)
        (p : Project) (out : HandlerOut),
        queryProject projects session_id = some p →
        handle_join_approval_response projects sessions session_id approval_id
            approved color = some out →
        usersLen sessions session_id ≤ p.max_users →
        usersLen out.sessions session_id ≤ p.max_users)
    ∧ (∀ (projects : List Project) (sessions : Sessions)
        (session_id approval_id color : String) (p : Project) (sd : SessionData)
        (approval : Approval),
        queryProject projects session_id = some p →
        lookupSession sessions session_id = some sd →
        sd.pending_approvals.find? (fun a => a.id == approval_id && a.type == "join")
          = some approval →
        sd.users.length ≥ p.max_users →
        handle_join_approval_response projects sessions session_id approval_id true
            color
          = some { sessions := setSession sessions session_id
                     { sd with pending_approvals :=
                         sd.pending_approvals.filter (fun a => !(a.id == approval_id)) },
                   events := [⟨"error", .toRoom approval.sidD, true,
                                .message "Session is full"⟩] }) := by
  refine ⟨?_, ?_, ?_⟩
  · intro projects sessions request_sid http_user_id session_id username is_anonymous
      usid color approval_id p hq hle
    simp only [handle_join_session, hq]
    split
    · exact hle
    · rw [lookupSession_ensureSession]
      simp only [Option.getD_some]
      split
      · rw [usersLen_set_ensure]
        exact hle
      · split
        · rw [usersLen_set_ensure]
          simpa only [updateFirst_length] using hle
        · split
          · split
            · rw [usersLen_ensure]
              exact hle
            · rename_i hfull
              rw [usersLen_set_ensure]
              simp only [List.length_append, List.length_singleton]
              have : usersLen sessions session_id
                  = ((lookupSession sessions session_id).getD ⟨[], []⟩).users.length := rfl
              omega
          · split
            · rw [usersLen_ensure]
              exact hle
            · split
              · rw [usersLen_set_ensure]
                exact hle
              · rw [usersLen_set_ensure]
                exact hle
  · intro projects sessions session_id approval_id approved color p out hq h1 hle
    simp only [handle_join_approval_response] at h1
    split at h1
    · simp only [Option.some.injEq] at h1
      subst h1
      exact hle
    · rename_i sd hlk
      split at h1
      · simp only [Option.some.injEq] at h1
        subst h1
        exact hle
      · split at h1
        · simp only [hq] at h1
          split at h1
          · rename_i hfull
            simp only [Option.some.injEq] at h1
            subst h1
            rw [usersLen_set sessions session_id _ (by simp [hlk])]
            have hsd : usersLen sessions session_id = sd.users.length := by
              simp [usersLen, hlk]
            show sd.users.length ≤ p.max_users
            omega
          · rename_i hfull
            simp only [Option.some.injEq] at h1
            subst h1
            rw [usersLen_set sessions session_id _ (by simp [hlk])]
            have hsd : usersLen sessions session_id = sd.users.length := by
              simp [usersLen, hlk]
            show (sd.users ++ [_]).length ≤ p.max_users
            simp only [List.length_append, List.length_singleton]
            omega
        · simp only [Option.some.injEq] at h1
          subst h1
          rw [usersLen_set sessions session_id _ (by simp [hlk])]
          have hsd : usersLen sessions session_id = sd.users.length := by
            simp [usersLen, hlk]
          show sd.users.length ≤ p.max_users
          omega
  · intro projects sessions session_id approval_id color p sd approval hq hlk hf hfull
    simp only [handle_join_approval_response, hlk, hf, if_true, hq, hfull]

/-- Witness for C3: concrete direct admit of the admin into an empty
session of capacity 5, and a concrete full-capacity approval refusal. -/
theorem C3_witness :
    usersLen (handle_join_session [⟨"s1", 1, "/ws", 5, true⟩] [] "c1" (some 1) "s1"
        "alice" false (some "t0") "#FF6B6B" "apX").sessions "s1" ≤ 5
    ∧ handle_join_approval_response [⟨"s1", 1, "/ws", 1, true⟩]
        [("s1", ⟨[⟨"c1", "alice", "#FF6B6B", none, false, some "t0", true⟩],
                 [Approval.join "ap1" "bob" true (some "t1") "c2"]⟩)] "s1" "ap1" true
        "#999"
      = some { sessions := setSession
                 [("s1", ⟨[⟨"c1", "alice", "#FF6B6B", none, false, some "t0", true⟩],
                          [Approval.join "ap1" "bob" true (some "t1") "c2"]⟩)] "s1"
                 { users := [⟨"c1", "alice", "#FF6B6B", none, false, some "t0", true⟩],
                   pending_approvals :=
                     [Approval.join "ap1" "bob" true (some "t1") "c2"].filter
                       (fun a => !(a.id == "ap1")) },
               events := [⟨"error", .toRoom (Approval.join "ap1" "bob" true (some "t1")
                            "c2").sidD, true, .message "Session is full"⟩] } := by
  constructor
  · exact C3_capacity_invariant.1 [⟨"s1", 1, "/ws", 5, true⟩] [] "c1" (some 1) "s1"
      "alice" false (some "t0") "#FF6B6B" "apX" ⟨"s1", 1, "/ws", 5, true⟩ (by decide)
      (by decide)
  · exact C3_capacity_invariant.2.2 [⟨"s1", 1, "/ws", 1, true⟩]
      [("s1", ⟨[⟨"c1", "alice", "#FF6B6B", none, false, some "t0", true⟩],
               [Approval.join "ap1" "bob" true (some "t1") "c2"]⟩)] "s1" "ap1" "#999"
      ⟨"s1", 1, "/ws", 1, true⟩
      ⟨[⟨"c1", "alice", "#FF6B6B", none, false, some "t0", true⟩],
       [Approval.join "ap1" "bob" true (some "t1") "c2"]⟩
      (Approval.join "ap1" "bob" true (some "t1") "c2") (by decide) (by decide)
      (by decide) (by decide)

/-- C8: at most one outstanding `join`-kind PendingApproval per stable
identity — the registry-wide invariant is preserved by every join-session
event, every join-approval resolution and every write-approval
resolution (the only operations that touch pending join approvals); and
a repeat join request from a stable identity that already has a pending
join approval updates that approval's connection id in place: the
pending list keeps its length and the only emitted event is the
requester's `waiting_approval` notice — the admin room is not
re-notified. -/
theorem C8_one_join_approval_per_identity :
    (∀ (projects : List Project) (sessions : Sessions) (request_sid : String)
        (http_user_id : Option Nat) (session_id username : String) (is_anonymous : Bool)
        (usid : Option String) (color approval_id : String),
        RegistryJoinInv sessions →
        RegistryJoinInv (handle_join_session projects sessions request_sid http_user_id
          session_id username is_anonymous usid color approval_id).sessions)
    ∧ (∀ (projects : List Project) (sessions : Sessions)
        (session_id approval_id : String) (approved : Bool) (color : String)
        (out : HandlerOut),
        handle_join_approval_response projects sessions session_id approval_id
            approved color = some out →
        RegistryJoinInv sessions → RegistryJoinInv out.sessions)
    ∧ (∀ (projects : List Project) (sessions : Sessions)
        (session_id approval_id : String) (approved writeOk : Bool) (mtime : Nat)
        (out : HandlerOut),
        handle_approval_response projects sessions session_id approval_id approved
            writeOk mtime = some out →
        RegistryJoinInv sessions → RegistryJoinInv out.sessions)
    ∧ (∀ (projects : List Project) (sessions : Sessions) (request_sid : String)
        (http_user_id : Option Nat) (session_id username : String) (is_anonymous : Bool)
        (usid : Option String) (color approval_id : String) (p : Project)
        (sd : SessionData),
        queryProject projects session_id = some p → p.active = true →
        lookupSession sessions session_id = some sd →
        (sd.pending_approvals.find?
            (fun a => a.getSessionId == usid && a.type == "join")).isSome = true →
        handle_join_session projects sessions request_sid http_user_id session_id
            username is_anonymous usid color approval_id
          = { sessions := setSession sessions session_id
                { sd with pending_approvals := (updateFirst
                    (fun a => a.getSessionId == usid && a.type == "join")
                    (Approval.setSid request_sid) sd.pending_approvals) },
              events := [⟨"waiting_approval", .caller, true,
                           .message "Waiting for admin approval..."⟩] }
        ∧ (updateFirst (fun a => a.getSessionId == usid && a.type == "join")
            (Approval.setSid request_sid) sd.pending_approvals).length
          = sd.pending_approvals.length) := by
  refine ⟨?_, ?_, ?_, ?_⟩
  · intro projects sessions request_sid http_user_id session_id username is_anonymous
      usid color approval_id hinv
    simp only [handle_join_session]
    split
    · exact hinv
    · split
      · exact hinv
      · rw [lookupSession_ensureSession]
        simp only [Option.getD_some]
        have hS : JoinInv ((lookupSession sessions session_id).getD ⟨[], []⟩) :=
          JoinInv_lookup sessions session_id hinv
        have hE : RegistryJoinInv (ensureSession sessions session_id) :=
          RegistryJoinInv_ensure sessions session_id hinv
        split
        · exact RegistryJoinInv_set _ _ _ hE (JoinInv_updateFirst_setSid _ hS _ _)
        · split
          · exact RegistryJoinInv_set _ _ _ hE (JoinInv_users _ hS _)
          · split
            · split
              · exact hE
              · exact RegistryJoinInv_set _ _ _ hE (JoinInv_users _ hS _)
            · split
              · exact hE
              · split
                · exact RegistryJoinInv_set _ _ _ hE
                    (JoinInv_updateFirst_setSid _ hS _ _)
                · rename_i hnone
                  exact RegistryJoinInv_set _ _ _ hE
                    (JoinInv_append_join _ hS _ _ _ _ _ hnone)
  · intro projects sessions session_id approval_id approved color out h1 hinv
    simp only [handle_join_approval_response] at h1
    split at h1
    · simp only [Option.some.injEq] at h1
      subst h1
      exact hinv
    · rename_i sd hlk
      have hS : JoinInv sd := by
        rcases lookupSession_mem sessions session_id sd hlk with ⟨e, he, hsd⟩
        rw [← hsd]
        exact hinv e he
      split at h1
      · simp only [Option.some.injEq] at h1
        subst h1
        exact hinv
      · split at h1
        · split at h1
          · exact absurd h1 (by simp)
          · split at h1
            · simp only [Option.some.injEq] at h1
              subst h1
              exact RegistryJoinInv_set _ _ _ hinv (JoinInv_filter _ hS _)
            · simp only [Option.some.injEq] at h1
              subst h1
              exact RegistryJoinInv_set _ _ _ hinv (JoinInv_users_filter _ hS _ _)
        · simp only [Option.some.injEq] at h1
          subst h1
          exact RegistryJoinInv_set _ _ _ hinv (JoinInv_filter _ hS _)
  · intro projects sessions session_id approval_id approved writeOk mtime out h1 hinv
    simp only [handle_approval_response] at h1
    split at h1
    · simp only [Option.some.injEq] at h1
      subst h1
      exact hinv
    · rename_i sd hlk
      have hS : JoinInv sd := by
        rcases lookupSession_mem sessions session_id sd hlk with ⟨e, he, hsd⟩
        rw [← hsd]
        exact hinv e he
      split at h1
      · simp only [Option.some.injEq] at h1
        subst h1
        exact hinv
      · split at h1
        · split at h1
          · exact absurd h1 (by simp)
          · split at h1
            · simp only [Option.some.injEq] at h1
              subst h1
              exact hinv
            · split at h1
              · simp only [Option.some.injEq] at h1
                subst h1
                exact RegistryJoinInv_set _ _ _ hinv (JoinInv_filter _ hS _)
              · simp only [Option.some.injEq] at h1
                subst h1
                exact RegistryJoinInv_set _ _ _ hinv (JoinInv_filter _ hS _)
        · simp only [Option.some.injEq] at h1
          subst h1
          exact RegistryJoinInv_set _ _ _ hinv (JoinInv_filter _ hS _)
  · intro projects sessions request_sid http_user_id session_id username is_anonymous
      usid color approval_id p sd hq hactive hs hp
    have hens : ensureSession sessions session_id = sessions :=
      ensureSession_of_isSome sessions session_id (by simp [hs])
    refine ⟨?_, updateFirst_length _ _ _⟩
    simp only [handle_join_session, hq, hactive, Bool.not_true, Bool.false_eq_true,
      if_false, hens, hs, Option.getD_some, hp, if_true]

/-- Witness for C8: concrete instantiations — a fresh join request into a
session with one unrelated pending join approval keeps the invariant;
both resolution handlers keep it; and a repeat join from the pending
identity re-arms in place with only the waiting notice. -/
theorem C8_witness :
    RegistryJoinInv (handle_join_session [⟨"s1", 1, "/ws", 5, true⟩]
      [("s1", ⟨[], [Approval.join "ap1" "carol" true (some "t2") "c2"]⟩)]
      "c3" none "s1" "dave" true (some "t3") "#FF6B6B" "ap2").sessions
    ∧ RegistryJoinInv (HandlerOut.sessions
        { sessions := [("s1", ⟨[], []⟩)],
          events := [⟨"join_rejected", .toRoom "c2", true,
                       .message "Your request to join was denied"⟩] })
    ∧ RegistryJoinInv (HandlerOut.sessions
        { sessions := [("s1", ⟨[], []⟩)],
          events := [⟨"approval_result", .toRoom "s1", true, .resultInfo "ap1" false⟩] })
    ∧ (handle_join_session [⟨"s1", 1, "/ws", 5, true⟩]
          [("s1", ⟨[], [Approval.join "ap1" "carol" true (some "t2") "c2"]⟩)]
          "c9" none "s1" "carol" true (some "t2") "#FF6B6B" "apZ"
        = { sessions := setSession
              [("s1", ⟨[], [Approval.join "ap1" "carol" true (some "t2") "c2"]⟩)] "s1"
              { users := [], pending_approvals := (updateFirst
                  (fun a => a.getSessionId == some "t2" && a.type == "join")
                  (Approval.setSid "c9")
                  [Approval.join "ap1" "carol" true (some "t2") "c2"]) },
            events := [⟨"waiting_approval", .caller, true,
                         .message "Waiting for admin approval..."⟩] }
        ∧ (updateFirst (fun a => a.getSessionId == some "t2" && a.type == "join")
            (Approval.setSid "c9")
            [Approval.join "ap1" "carol" true (some "t2") "c2"]).length
          = [Approval.join "ap1" "carol" true (some "t2") "c2"].length) := by
  have hinv0 : RegistryJoinInv
      [("s1", (⟨[], [Approval.join "ap1" "carol" true (some "t2") "c2"]⟩ : SessionData))] := by
    intro e he
    simp only [List.mem_singleton] at he
    subst he
    intro x
    cases hx : ((some "t2" : Option String) == x) <;>
      simp [joinCount, Approval.getSessionId, Approval.type, List.filter_cons, hx]
  have hinv1 : RegistryJoinInv [("s1", (⟨[], []⟩ : SessionData))] := by
    intro e he
    simp only [List.mem_singleton] at he
    subst he
    intro x
    simp [joinCount]
  refine ⟨?_, ?_, ?_, ?_⟩
  · exact C8_one_join_approval_per_identity.1 [⟨"s1", 1, "/ws", 5, true⟩]
      [("s1", ⟨[], [Approval.join "ap1" "carol" true (some "t2") "c2"]⟩)]
      "c3" none "s1" "dave" true (some "t3") "#FF6B6B" "ap2" hinv0
  · exact C8_one_join_approval_per_identity.2.1 []
      [("s1", ⟨[], [Approval.join "ap1" "carol" true (some "t2") "c2"]⟩)]
      "s1" "ap1" false "#999"
      { sessions := [("s1", ⟨[], []⟩)],
        events := [⟨"join_rejected", .toRoom "c2", true,
                     .message "Your request to join was denied"⟩] }
      (by decide) hinv0
  · exact C8_one_join_approval_per_identity.2.2.1 []
      [("s1", ⟨[], [Approval.join "ap1" "carol" true (some "t2") "c2"]⟩)]
      "s1" "ap1" false true 0
      { sessions := [("s1", ⟨[], []⟩)],
        events := [⟨"approval_result", .toRoom "s1", true, .resultInfo "ap1" false⟩] }
      (by decide) hinv0
  · exact C8_one_join_approval_per_identity.2.2.2 [⟨"s1", 1, "/ws", 5, true⟩]
      [("s1", ⟨[], [Approval.join "ap1" "carol" true (some "t2") "c2"]⟩)]
      "c9" none "s1" "carol" true (some "t2") "#FF6B6B" "apZ"
      ⟨"s1", 1, "/ws", 5, true⟩
      ⟨[], [Approval.join "ap1" "carol" true (some "t2") "c2"]⟩
      (by decide) (by decide) (by decide) (by decide)

end Maan
